import Mathlib

/-!
Verification development for the mutual-fund recommendation engine
(`recommendation_model.py`).  The Python code is shallowly embedded:

* Python strings become `String`; `str.lower()` becomes `pyLower` and the
  substring test `pat in s` becomes `pySubstr` (both defined over `List Char`
  so that they evaluate inside the kernel).
* Python floats become `ℚ`.  The engine only ever combines its numeric
  fields with exact arithmetic and comparisons in the fragments verified
  here; the one genuinely floating-point stage (the z-score computation of
  `_score_funds_within_class`, which uses `np.log` and a standard deviation)
  is abstracted as a `Scorer` oracle that attaches `Score` and
  `Score_Normalized` columns to the filtered rows.  All selection-stage
  theorems are proved for every row-preserving scorer, which the pandas
  implementation is (it only assigns new columns on a copy).
* pandas dataframes become either `List SchemeRow` (for the classified
  catalog, whose schema is fixed after loading) or the column-keyed `Table`
  (for the raw catalog handled by `_validate_dataset`, where whole columns
  may be absent).
* `DataFrame.nlargest(n, 'Score')` (default `keep='first'`) becomes a stable
  descending sort followed by `take n` (`nlargestBy`).
-/

/- Core `Rat` arithmetic is marked `@[irreducible]`; restore reducibility so
that `decide` can evaluate the embedded pipeline on concrete inputs. -/
attribute [local semireducible] Rat.sub Rat.add Rat.mul Rat.inv

/-! ## Python string primitives -/

/-- Python's `str.lower()` (ASCII case folding suffices for every string the
engine compares). -/
def pyLower (s : String) : String :=
  String.mk (s.data.map Char.toLower)

/-- Python's substring test `pat in s`, on character lists: some drop of `s`
starts with `pat`. -/
def listSubstr (pat s : List Char) : Bool :=
  (List.range (s.length + 1)).any (fun i => pat.isPrefixOf (s.drop i))

/-- Python's substring test `pat in s` on strings. -/
def pySubstr (pat s : String) : Bool :=
  listSubstr pat.data s.data

/-- Python's `any(k in s for k in ks)`. -/
def containsAny (ks : List String) (s : String) : Bool :=
  ks.any (fun k => pySubstr k s)

/-! ## UserProfile (`recommendation_model.py` lines 16-27) -/

/-- The `UserProfile` dataclass. -/
structure UserProfile where
  user_id : String
  age : Int
  annual_income : String
  monthly_sip : Int
  risk_tolerance : String
  investment_horizon : String
  investment_goals : List String
  experience : String
deriving DecidableEq

/-! ## Classifier (`_classify_row` lines 147-209, `_risk_grade` lines 211-227) -/

/-- STEP 0 exclusion keywords of `_classify_row`. -/
def exclusion_keywords : List String :=
  ["gold", "silver", "commodity", "real estate", "reits"]

/-- STEP A name-only debt keywords of `_classify_row`. -/
def debt_name_keywords : List String :=
  ["bond", "sdl", "g-sec", "g-security", "bharat bond"]

/-- STEP A combined-text debt keywords of `_classify_row`. -/
def debt_keywords : List String :=
  ["liquid", "overnight", "corporate bond", "ultra short", "gilt",
   "bond index", "bond plus", "sdl", "target maturity", "money market",
   "floater", "credit risk", "banking", "psu bond", "short duration",
   "bharat bond", "fof"]

/-- STEP B hybrid keywords of `_classify_row`. -/
def hybrid_keywords : List String :=
  ["arbitrage", "dynamic bond", "hybrid", "balanced"]

/-- STEP C equity keywords of `_classify_row`. -/
def equity_keywords : List String :=
  ["large cap", "mid cap", "small cap", "flexi", "flexi cap",
   "sectoral", "thematic", "index", "growth", "dividend",
   "multi-cap", "multicap"]

/-- The f-string `f"{name} {category}"` over the lowercased fields. -/
def combinedText (scheme_name scheme_category : String) : String :=
  pyLower scheme_name ++ " " ++ pyLower scheme_category

/-- Embeds `_classify_row`: priority-ordered keyword classification into
`'Equity' | 'Debt' | 'Hybrid' | 'Other'`.  Exclusions are checked on the
combined text, then the debt tier on the name alone, then the extended debt
lexicon, hybrid and equity tiers on the combined text. -/
def classifyRow (scheme_name scheme_category : String) : String :=
  if containsAny exclusion_keywords (combinedText scheme_name scheme_category) then "Other"
  else if containsAny debt_name_keywords (pyLower scheme_name) then "Debt"
  else if containsAny debt_keywords (combinedText scheme_name scheme_category) then "Debt"
  else if containsAny hybrid_keywords (combinedText scheme_name scheme_category) then "Hybrid"
  else if containsAny equity_keywords (combinedText scheme_name scheme_category) then "Equity"
  else "Other"

/-- Embeds `_risk_grade`: risk grade 1-5 from `scheme_category` alone.  (The
`pd.isna` guard in the source is dead: the column is passed through
`astype(str)` first, so the argument is always a string.) -/
def riskGrade (category : String) : Nat :=
  if containsAny ["liquid", "overnight"] (pyLower category) then 1
  else if containsAny ["ultra short", "short duration", "money market"] (pyLower category) then 2
  else if containsAny ["large cap", "flexi", "hybrid", "dynamic", "bond"] (pyLower category) then 3
  else if containsAny ["mid cap", "small cap"] (pyLower category) then 4
  else if containsAny ["sectoral", "thematic"] (pyLower category) then 5
  else 3

/-- A catalog record as seen by the Classifier: the two text fields it reads
plus the two labels it writes. -/
structure CatalogRecord where
  scheme_name : String
  scheme_category : String
  Asset_Class : String
  Risk_Grade : Nat
deriving DecidableEq

/-- Embeds `_classify_funds` on one record: overwrite `Asset_Class` and
`Risk_Grade` from `scheme_name`/`scheme_category`. -/
def classifyRecord (r : CatalogRecord) : CatalogRecord :=
  { r with
    Asset_Class := classifyRow r.scheme_name r.scheme_category
    Risk_Grade := riskGrade r.scheme_category }

/-! ## vectorize_user (lines 239-286) -/

/-- The feature vector returned by `vectorize_user`. -/
structure UserVector where
  age_norm : ℚ
  income_score : ℚ
  sip_norm : ℚ
  risk_score : ℚ
  horizon_norm : ℚ
  exp_score : ℚ
  goal_score : ℚ
deriving DecidableEq

/-- Lookup `income_map.get(annual_income, 2)`. -/
def incomeMapGet (s : String) : ℚ :=
  if s = "5L" then 1 else if s = "10L" then 2
  else if s = "25L" then 3 else if s = "50L+" then 4 else 2

/-- Lookup `risk_map.get(risk_tolerance, 2.5)`. -/
def riskMapGet (s : String) : ℚ :=
  if s = "Low" then 1 else if s = "Moderate" then 5/2
  else if s = "High" then 4 else if s = "Very High" then 5 else 5/2

/-- Lookup `horizon_map.get(investment_horizon, 2)`. -/
def horizonMapGet (s : String) : ℚ :=
  if s = "1-3yr" then 1 else if s = "3-5yr" then 2
  else if s = "5-10yr" then 3 else if s = "10+yr" then 4 else 2

/-- Lookup `exp_map.get(experience, 2)`. -/
def expMapGet (s : String) : ℚ :=
  if s = "Beginner" then 1 else if s = "Intermediate" then 2
  else if s = "Expert" then 3 else 2

/-- Lookup `goal_weights.get(g, 0)`. -/
def goalWeightGet (g : String) : ℚ :=
  if g = "Retirement" then 1 else if g = "Child Edu" then 4/5
  else if g = "Wealth Growth" then 1 else if g = "Emergency" then 0 else 0

/-- Embeds `vectorize_user`. -/
def vectorizeUser (p : UserProfile) : UserVector :=
  { age_norm := (p.age : ℚ) / 70
    income_score := incomeMapGet p.annual_income / 4
    sip_norm := min ((p.monthly_sip : ℚ) / 50000) 1
    risk_score := riskMapGet p.risk_tolerance / 5
    horizon_norm := horizonMapGet p.investment_horizon / 4
    exp_score := expMapGet p.experience / 3
    goal_score :=
      min ((if p.investment_goals ≠ [] then
              (p.investment_goals.map goalWeightGet).sum / (p.investment_goals.length : ℚ)
            else 1/2) / 1) 1 }

/-! ## _compute_allocation (lines 288-323) -/

/-- Embeds `_compute_allocation`: returns `(equity_pct, debt_pct)`.
Base `110 - age`; `+10` when the lowercased risk tolerance contains
`'high'` or `'very high'`, `-20` when it contains `'low'`; the
Emergency/short-horizon override to `0` runs only inside the
short-horizon branch; final clamp to `[0, 100]` and conversion to
fractions. -/
def computeAllocation (p : UserProfile) : ℚ × ℚ :=
  let target0 : ℚ := ((110 - p.age : ℤ) : ℚ)
  let target1 : ℚ :=
    if pySubstr "high" (pyLower p.risk_tolerance)
        || pySubstr "very high" (pyLower p.risk_tolerance) then target0 + 10
    else if pySubstr "low" (pyLower p.risk_tolerance) then target0 - 20
    else target0
  let target2 : ℚ :=
    if containsAny ["<1", "less", "1yr", "1-3", "3yr-5yr"] (pyLower p.investment_horizon) then
      (if "emergency" ∈ p.investment_goals.map pyLower then 0
       else if containsAny ["<1", "less", "1yr", "1-3"] (pyLower p.investment_horizon) then 0
       else target1)
    else target1
  let target : ℚ := max 0 (min 100 target2)
  (target / 100, (100 - target) / 100)

/-! ## The classified catalog and _hard_filter (lines 325-380) -/

/-- One row of the engine's classified catalog `self.df_schemes`: the columns
the recommendation pipeline reads, including the Classifier's two labels. -/
structure SchemeRow where
  scheme_code : Int
  scheme_name : String
  fund_house : String
  scheme_category : String
  plan : String
  nav : ℚ
  aum_cr : ℚ
  estimated_ter : ℚ
  cagr_3y : ℚ
  min_sip : ℚ
  Asset_Class : String
  Risk_Grade : Nat
deriving DecidableEq

/-- The horizon/goal section of `_hard_filter` (lines 336-362).  Note the
source tests `'emergency' in profile.investment_goals` on the raw goal
list, without lowercasing. -/
def hardFilterHorizon (p : UserProfile) (df : List SchemeRow) : List SchemeRow :=
  if "emergency" ∈ p.investment_goals then
    df.filter (fun r => r.Asset_Class == "Debt" && r.Risk_Grade == 1)
  else if containsAny ["<1", "less", "1yr", "1-3"] (pyLower p.investment_horizon) then
    df.filter (fun r =>
      r.Asset_Class == "Debt"
      || (r.Asset_Class == "Hybrid" && pySubstr "arbitrage" (pyLower r.scheme_category)))
  else if containsAny ["3-5", "3yr-5yr"] (pyLower p.investment_horizon) then
    df.filter (fun r =>
      r.Asset_Class == "Debt" || r.Asset_Class == "Hybrid"
      || (r.Asset_Class == "Equity"
          && (pySubstr "large" (pyLower r.scheme_category)
              || pySubstr "flexi" (pyLower r.scheme_category))))
  else df

/-- The experience section of `_hard_filter` (lines 365-368). -/
def hardFilterExperience (p : UserProfile) (df : List SchemeRow) : List SchemeRow :=
  if pyLower p.experience == "beginner" then
    df.filter (fun r =>
      ! containsAny ["sectoral", "thematic", "small cap", "small"] (pyLower r.scheme_category))
  else df

/-- Embeds `_hard_filter`: horizon/goal constraints, then experience, then the
viability constraints `aum_cr >= 100.0` and `min_sip <= monthly_sip`. -/
def hardFilter (p : UserProfile) (df : List SchemeRow) : List SchemeRow :=
  ((hardFilterExperience p (hardFilterHorizon p df)).filter
      (fun r => decide ((100 : ℚ) ≤ r.aum_cr))).filter
    (fun r => decide (r.min_sip ≤ (p.monthly_sip : ℚ)))

/-! ## Scoring abstraction, selection and explanation (lines 382-445, 529-641) -/

/-- A filtered row with the `Score` and `Score_Normalized` columns attached
by `_score_funds_within_class`. -/
structure ScoredRow where
  row : SchemeRow
  score : ℚ
  scoreNormalized : ℚ
deriving DecidableEq

/-- The scoring stage `_score_funds_within_class` as an oracle: it maps the
filtered rows to scored rows.  The pandas implementation computes the two
new columns with floating-point z-scores (`np.log`, group std); every
selection theorem below holds for each scorer that returns the same rows in
the same order (`(scorer l).map ScoredRow.row = l`), which the source does
(it assigns columns on a copy and never drops or reorders rows). -/
abbrev Scorer := List SchemeRow → List ScoredRow

/-- Embeds `DataFrame.nlargest(n, key)` with the default `keep='first'`: stable
descending sort by the key, then the first `n` rows. -/
def nlargestBy (n : Nat) (key : ScoredRow → ℚ) (l : List ScoredRow) : List ScoredRow :=
  (l.insertionSort (fun a b => key b ≤ key a)).take n

/-- The fixed top-AMC list of `_explain_fund` (line 633). -/
def explain_top_amcs : List String :=
  ["SBI", "ICICI", "HDFC", "Nippon", "Kotak", "Aditya Birla", "UTI", "Axis", "Mirae", "DSP"]

/-- Embeds `_explain_fund`: concatenates the applicable reason fragments.  The
Python truthiness test `row.get('cagr_3y', 0) and row['cagr_3y'] > 0.15`
becomes `cagr_3y ≠ 0 ∧ cagr_3y > 0.15` (the column is NaN-free after
validation).  The AMC match is case-sensitive, the plan match is not. -/
def explainFund (row : SchemeRow) : String :=
  let reasons : List String :=
    (if decide ((1000 : ℚ) ≤ row.aum_cr) then ["Large AUM (stability)"]
     else if decide ((100 : ℚ) ≤ row.aum_cr) then ["Healthy AUM"] else [])
    ++ (if decide (row.estimated_ter < 1/2) then ["Low expense ratio"]
        else if decide (row.estimated_ter < 1) then ["Reasonable costs"] else [])
    ++ (if decide (row.cagr_3y ≠ 0) && decide ((3/20 : ℚ) < row.cagr_3y)
        then ["Strong 3Y returns"] else [])
    ++ (if explain_top_amcs.any (fun amc => pySubstr amc row.fund_house)
        then ["Top-10 AMC"] else [])
    ++ (if pySubstr "direct" (pyLower row.plan) then ["Direct Plan (lower fees)"] else [])
  if reasons ≠ [] then String.intercalate " • " reasons else "Strong fundamental match"

/-- Python's `round(x, 1)` on an exact value: round `10*x` to the nearest
integer, ties to even, divide by 10. -/
def pyRound1 (q : ℚ) : ℚ :=
  let f : ℤ := ⌊10 * q⌋
  let r : ℚ := 10 * q - (f : ℚ)
  if r < 1/2 then (f : ℚ) / 10
  else if r > 1/2 then ((f : ℚ) + 1) / 10
  else (if f % 2 = 0 then (f : ℚ) else (f : ℚ) + 1) / 10

/-- One entry of the list returned by `recommend` (the dict built at lines
565-579 and 588-602).  `cagr_3y` is a plain rational: after validation the
column is NaN-free, so the `pd.notna` guard always takes the first branch. -/
structure Recommendation where
  rank : Nat
  asset_class : String
  scheme_code : Int
  scheme_name : String
  fund_house : String
  scheme_category : String
  plan : String
  nav : ℚ
  aum_cr : ℚ
  estimated_ter : ℚ
  cagr_3y : ℚ
  score : ℚ
  reason : String
deriving DecidableEq

/-- Build one recommendation dict from a scored row. -/
def mkRecommendation (rank : Nat) (ac : String) (sr : ScoredRow) : Recommendation :=
  { rank := rank
    asset_class := ac
    scheme_code := sr.row.scheme_code
    scheme_name := sr.row.scheme_name
    fund_house := sr.row.fund_house
    scheme_category := sr.row.scheme_category
    plan := sr.row.plan
    nav := sr.row.nav
    aum_cr := sr.row.aum_cr
    estimated_ter := sr.row.estimated_ter
    cagr_3y := sr.row.cagr_3y
    score := pyRound1 sr.scoreNormalized
    reason := explainFund sr.row }

/-- One `for i, (_, row) in enumerate(bucket.iterrows(), 1)` loop body:
ranks continue from `start`. -/
def buildBucket (ac : String) (start : Nat) (rows : List ScoredRow) : List Recommendation :=
  rows.enum.map (fun ir => mkRecommendation (start + ir.1 + 1) ac ir.2)

/-- Embeds `recommend` before the final `[:top_n]` truncation: filter, early-return
on an empty filtered set, allocate, score, then select the top-3 Equity
bucket (only when `equity_pct > 0.01`) followed by the top-2 (or top-3)
Debt bucket. -/
def recommendFull (scorer : Scorer) (catalog : List SchemeRow) (p : UserProfile) :
    List Recommendation :=
  let dfFiltered := hardFilter p catalog
  if dfFiltered.length = 0 then []
  else
    let alloc := computeAllocation p
    let dfScored := scorer dfFiltered
    let equityFunds :=
      if alloc.1 > 1/100 then
        nlargestBy 3 (fun r => r.score) (dfScored.filter (fun r => r.row.Asset_Class == "Equity"))
      else []
    let equityRecs := buildBucket "Equity" 0 equityFunds
    let debtCount := if alloc.1 > 1/100 then 2 else 3
    let debtFunds :=
      nlargestBy debtCount (fun r => r.score) (dfScored.filter (fun r => r.row.Asset_Class == "Debt"))
    equityRecs ++ buildBucket "Debt" equityRecs.length debtFunds

/-- Embeds `recommend`: the full pipeline followed by `recommendations[:top_n]`. -/
def recommend (scorer : Scorer) (catalog : List SchemeRow) (p : UserProfile) (top_n : Nat) :
    List Recommendation :=
  (recommendFull scorer catalog p).take top_n

/-- The engine's per-instance state: the classified catalog `self.df_schemes`.
No statement of `recommend` or its helpers assigns to it, so the embedding
threads it through unchanged. -/
structure EngineState where
  df_schemes : List SchemeRow
deriving DecidableEq

/-- Embeds `recommend` as a state transformer on the engine: result list plus the
state after the call. -/
def recommendState (scorer : Scorer) (s : EngineState) (p : UserProfile) (top_n : Nat) :
    List Recommendation × EngineState :=
  (recommend scorer s.df_schemes p top_n, s)

/-! ## The raw catalog and _validate_dataset (lines 50-119, 233-235) -/

/-- One dataframe cell: missing (`NaN`/`None`), numeric, or text. -/
inductive Cell where
  | na : Cell
  | num : ℚ → Cell
  | txt : String → Cell
deriving DecidableEq

/-- A raw tabular dataset: the index length and the named columns, in
column order.  A column may be absent altogether, which is distinct from a
present column containing `na` cells. -/
structure Table where
  nrows : Nat
  cols : List (String × List Cell)
deriving DecidableEq

deriving instance DecidableEq for Except

/-- Embeds `col in df.columns`. -/
def Table.hasCol (t : Table) (c : String) : Bool :=
  t.cols.any (fun kv => kv.1 == c)

/-- Column lookup; `none` when the column is absent. -/
def Table.getCol (t : Table) (c : String) : Option (List Cell) :=
  (t.cols.find? (fun kv => kv.1 == c)).map Prod.snd

/-- Embeds `df[c] = v`: replace the column in place, or append it. -/
def Table.setCol (t : Table) (c : String) (v : List Cell) : Table :=
  if t.hasCol c then
    { t with cols := t.cols.map (fun kv => if kv.1 == c then (kv.1, v) else kv) }
  else { t with cols := t.cols ++ [(c, v)] }

/-- The mandatory columns of `_validate_dataset`. -/
def required_cols : List String :=
  ["scheme_code", "scheme_name", "fund_house", "scheme_category", "plan", "cagr_3y"]

/-- The `top_10_amcs` list (lines 72-74). -/
def top_10_amcs : List String :=
  ["SBI", "ICICI Prudential", "HDFC", "Nippon India", "Kotak Mahindra",
   "Aditya Birla Sun Life", "UTI", "Axis", "Mirae Asset", "DSP"]

/-- Embeds `Series.str.contains('k1|k2|...', case=False, na=False)` on one cell:
case-insensitive substring match of any keyword; `False` on non-text. -/
def cellContainsAnyCI (ks : List String) (c : Cell) : Bool :=
  match c with
  | Cell.txt s => ks.any (fun k => pySubstr (pyLower k) (pyLower s))
  | _ => false

/-- A keyword-indicator column: `.str.contains(...).astype(int)`. -/
def indicatorCol (t : Table) (source : String) (ks : List String) : List Cell :=
  ((t.getCol source).getD []).map
    (fun c => Cell.num (if cellContainsAnyCI ks c then 1 else 0))

/-- Add a column only when absent (the `if col not in df.columns` guards). -/
def Table.setColIfMissing (t : Table) (c : String) (v : Table → List Cell) : Table :=
  if t.hasCol c then t else t.setCol c (v t)

/-- Embeds `df.dropna(subset, how='any')`: keep exactly the row indices where every
subset column holds a non-`na` cell. -/
def dropnaRows (t : Table) (subset : List String) : Table :=
  let keep : List Bool :=
    (List.range t.nrows).map (fun i =>
      ! subset.any (fun c => ((t.getCol c).getD []).getD i Cell.na == Cell.na))
  { nrows := keep.count true,
    cols := t.cols.map (fun kv =>
      (kv.1, ((keep.zip kv.2).filter (fun bc => bc.1)).map (fun bc => bc.2))) }

/-- Embeds `df[c] = df[c].fillna(q)`.  Reading a column that does not exist raises
`KeyError` in pandas, modelled as `Except.error`. -/
def fillnaCol (t : Table) (c : String) (q : ℚ) : Except String Table :=
  match t.getCol c with
  | none => Except.error ("KeyError: " ++ c)
  | some col =>
      Except.ok (t.setCol c (col.map (fun cell => if cell == Cell.na then Cell.num q else cell)))

/-- Embeds `_validate_dataset` (lines 50-119): mandatory-column check, the guarded
creation of `nav` / `estimated_ter` / `aum_cr` / the binary feature columns,
the `dropna` on the critical fields, then the `fillna` chain — whose
`cagr_5y` line reads the column without any existence guard. -/
def validateDataset (t0 : Table) : Except String Table :=
  let missing := required_cols.filter (fun c => ! t0.hasCol c)
  if missing ≠ [] then
    Except.error ("Dataset missing columns: " ++ String.intercalate ", " missing)
  else
    let t := if ! t0.hasCol "nav" && t0.hasCol "latest_nav" then
               t0.setCol "nav" ((t0.getCol "latest_nav").getD []) else t0
    let t := if ! t.hasCol "estimated_ter" && t.hasCol "expense_ratio" then
               t.setCol "estimated_ter" ((t.getCol "expense_ratio").getD []) else t
    let t := t.setColIfMissing "aum_cr" (fun t => List.replicate t.nrows (Cell.num 100))
    let t := t.setColIfMissing "amc_reputation" (fun t => indicatorCol t "fund_house" top_10_amcs)
    let t := t.setColIfMissing "debt_score"
      (fun t => indicatorCol t "scheme_category" ["Debt", "Corporate", "Liquid", "Banking", "PSU", "Gilt"])
    let t := t.setColIfMissing "equity_score"
      (fun t => indicatorCol t "scheme_category" ["Equity", "Large", "Mid", "Small", "Flexi", "Multi"])
    let t := t.setColIfMissing "hybrid_score"
      (fun t => indicatorCol t "scheme_category" ["Hybrid", "Balanced", "Arbitrage", "Conservative"])
    let t := t.setColIfMissing "direct_plan"
      (fun t => ((t.getCol "plan").getD []).map
        (fun c => Cell.num (if c == Cell.txt "Direct" then 1 else 0)))
    let t := t.setColIfMissing "category_quality"
      (fun t => indicatorCol t "scheme_category" ["Large Cap", "Flexi Cap", "Corporate Bond", "Banking"])
    let t := t.setColIfMissing "nav" (fun t => List.replicate t.nrows (Cell.num 100))
    let t := t.setColIfMissing "estimated_ter" (fun t => List.replicate t.nrows (Cell.num 1))
    let t := dropnaRows t ["scheme_code", "scheme_name", "cagr_3y"]
    (fillnaCol t "cagr_3y" 0).bind (fun t =>
      (fillnaCol t "cagr_5y" 0).bind (fun t =>
        (fillnaCol t "aum_cr" 100).bind (fun t =>
          (fillnaCol t "estimated_ter" 1).bind (fun t =>
            fillnaCol t "nav" 100))))

/-! ## Concrete fixtures used by the closed theorems below -/

/-- A concrete row-preserving scorer used to instantiate the selection
theorems: it scores each row by its 3-year CAGR. -/
def simpleScorer : Scorer :=
  fun rows => rows.map (fun r => { row := r, score := r.cagr_3y, scoreNormalized := 0 })

/-- A profile whose goal list is the documented value `["Emergency"]`
(capitalised, as produced by every caller in the repository). -/
def profileEmergencyLong : UserProfile :=
  { user_id := "u-c1", age := 30, annual_income := "10L", monthly_sip := 5000,
    risk_tolerance := "Moderate", investment_horizon := "10+yr",
    investment_goals := ["Emergency"], experience := "Expert" }

/-- A genuinely classified Equity row (its labels agree with the
Classifier on its own text fields). -/
def equityRowFixture : SchemeRow :=
  { scheme_code := 100001, scheme_name := "Alpha Flexi Cap Fund",
    fund_house := "HDFC", scheme_category := "Flexi Cap", plan := "Direct",
    nav := 100, aum_cr := 500, estimated_ter := 1, cagr_3y := 12/100,
    min_sip := 0, Asset_Class := "Equity", Risk_Grade := 3 }

/-- An Emergency profile with a short horizon (the case in which the
allocator's override does fire). -/
def profileEmergencyShort : UserProfile :=
  { user_id := "u-c2", age := 40, annual_income := "10L", monthly_sip := 5000,
    risk_tolerance := "Low", investment_horizon := "1-3yr",
    investment_goals := ["Emergency"], experience := "Beginner" }

/-- A profile with the unrecognized risk tolerance `"yellow"` — a string
outside the documented set that happens to contain `"low"`. -/
def profileYellow : UserProfile :=
  { user_id := "u-c6", age := 40, annual_income := "10L", monthly_sip := 5000,
    risk_tolerance := "yellow", investment_horizon := "5-10yr",
    investment_goals := ["Wealth Growth"], experience := "Expert" }

/-- A profile with the unrecognized risk tolerance `"Medium"`, containing
neither `"high"` nor `"low"`. -/
def profileMedium : UserProfile :=
  { user_id := "u-c6w", age := 40, annual_income := "10L", monthly_sip := 5000,
    risk_tolerance := "Medium", investment_horizon := "5-10yr",
    investment_goals := ["Wealth Growth"], experience := "Expert" }

/-- A long-horizon moderate profile that keeps every asset class in the
filtered set. -/
def profileGrowth : UserProfile :=
  { user_id := "u-c7", age := 30, annual_income := "10L", monthly_sip := 5000,
    risk_tolerance := "Moderate", investment_horizon := "10+yr",
    investment_goals := ["Wealth Growth"], experience := "Expert" }

/-- A second binding of the same profile field values as `profileGrowth`,
used to state determinism across equal-valued inputs. -/
def profileGrowthTwin : UserProfile :=
  { user_id := "u-c7", age := 30, annual_income := "10L", monthly_sip := 5000,
    risk_tolerance := "Moderate", investment_horizon := "10+yr",
    investment_goals := ["Wealth Growth"], experience := "Expert" }

/-- A five-row classified catalog: two Equity, two Debt, one Hybrid. -/
def catalogFixture : List SchemeRow :=
  [equityRowFixture,
   { scheme_code := 100002, scheme_name := "Beta Large Cap Fund",
     fund_house := "SBI", scheme_category := "Large Cap", plan := "Direct",
     nav := 50, aum_cr := 2000, estimated_ter := 1/2, cagr_3y := 15/100,
     min_sip := 0, Asset_Class := "Equity", Risk_Grade := 3 },
   { scheme_code := 100003, scheme_name := "Gamma Liquid Fund",
     fund_house := "UTI", scheme_category := "Liquid", plan := "Direct",
     nav := 1000, aum_cr := 5000, estimated_ter := 1/5, cagr_3y := 6/100,
     min_sip := 0, Asset_Class := "Debt", Risk_Grade := 1 },
   { scheme_code := 100004, scheme_name := "Delta Corporate Bond Fund",
     fund_house := "Axis", scheme_category := "Corporate Bond", plan := "Regular",
     nav := 30, aum_cr := 800, estimated_ter := 3/5, cagr_3y := 7/100,
     min_sip := 0, Asset_Class := "Debt", Risk_Grade := 3 },
   { scheme_code := 100005, scheme_name := "Epsilon Balanced Advantage Fund",
     fund_house := "DSP", scheme_category := "Balanced Advantage", plan := "Direct",
     nav := 20, aum_cr := 900, estimated_ter := 4/5, cagr_3y := 10/100,
     min_sip := 0, Asset_Class := "Hybrid", Risk_Grade := 3 }]

/-- A raw catalog holding exactly the six mandatory columns and one row —
in particular, no `cagr_5y` column. -/
def rawCatalogMandatoryOnly : Table :=
  { nrows := 1,
    cols := [("scheme_code", [Cell.num 100001]),
             ("scheme_name", [Cell.txt "Alpha Liquid Fund"]),
             ("fund_house", [Cell.txt "SBI"]),
             ("scheme_category", [Cell.txt "Liquid"]),
             ("plan", [Cell.txt "Direct"]),
             ("cagr_3y", [Cell.num (6/100)])] }

/-- The selection contract of `recommend`'s bucket stage, for one scorer,
catalog and profile: writing `recs` for the pre-truncation output,
`eqRows`/`dbRows` for the Equity/Debt rows of the scored set and `pct` for
the allocated equity fraction —
the equity rows of the output are exactly the scored Equity survivors and
likewise for Debt; every output entry is Equity- or Debt-class; the output
is an Equity block followed by a Debt block of the documented sizes; the
output buckets are the `nlargestBy` selections by `Score`; and each
selected row's `Score` dominates every unselected row of its bucket. -/
def selectionContract (scorer : Scorer) (catalog : List SchemeRow) (p : UserProfile) : Prop :=
  let recs := recommendFull scorer catalog p
  let scored := scorer (hardFilter p catalog)
  let eqRows := scored.filter (fun r => r.row.Asset_Class == "Equity")
  let dbRows := scored.filter (fun r => r.row.Asset_Class == "Debt")
  let pct := (computeAllocation p).1
  let dbCount := if pct > 1/100 then 2 else 3
  (eqRows.map ScoredRow.row = (hardFilter p catalog).filter (fun r => r.Asset_Class == "Equity")
    ∧ dbRows.map ScoredRow.row = (hardFilter p catalog).filter (fun r => r.Asset_Class == "Debt"))
  ∧ (∀ r ∈ recs, r.asset_class = "Equity" ∨ r.asset_class = "Debt")
  ∧ recs.map (fun r => r.asset_class)
      = List.replicate (if pct > 1/100 then min 3 eqRows.length else 0) "Equity"
        ++ List.replicate (min dbCount dbRows.length) "Debt"
  ∧ (recs.filter (fun r => r.asset_class == "Equity")).map (fun r => r.scheme_code)
      = (if pct > 1/100 then nlargestBy 3 (fun r => r.score) eqRows else []).map
          (fun r => r.row.scheme_code)
  ∧ (recs.filter (fun r => r.asset_class == "Debt")).map (fun r => r.scheme_code)
      = (nlargestBy dbCount (fun r => r.score) dbRows).map (fun r => r.row.scheme_code)
  ∧ (∀ x ∈ nlargestBy 3 (fun r => r.score) eqRows, ∀ y ∈ eqRows,
       y ∉ nlargestBy 3 (fun r => r.score) eqRows → y.score ≤ x.score)
  ∧ (∀ x ∈ nlargestBy dbCount (fun r => r.score) dbRows, ∀ y ∈ dbRows,
       y ∉ nlargestBy dbCount (fun r => r.score) dbRows → y.score ≤ x.score)

/-! ## Helper lemmas -/

/-- A substring of a suffix: if `a ++ p` occurs in `s`, so does `p`. -/
theorem listSubstr_of_append (a p s : List Char)
    (h : listSubstr (a ++ p) s = true) : listSubstr p s = true := by
  unfold listSubstr at h ⊢
  rw [List.any_eq_true] at h ⊢
  obtain ⟨i, hi, hpre⟩ := h
  rw [ List.isPrefixOf_iff_prefix] at hpre
  obtain ⟨t, ht⟩ := hpre
  refine ⟨i + a.length, ?_, ?_⟩
  · rw [List.mem_range] at hi ⊢
    have hd : (s.drop i).length = s.length - i := List.length_drop i s
    have hlen : ((a ++ p) ++ t).length = (s.drop i).length := by rw [ht]
    simp only [List.length_append] at hlen
    omega
  · rw [ List.isPrefixOf_iff_prefix]
    have hdrop : s.drop (i + a.length) = p ++ t := by
      rw [← List.drop_drop, ← ht, List.append_assoc, List.drop_left]
    rw [hdrop]
    exact List.prefix_append p t

/-- Containment of `very high` in a string entails containment of `high`. -/
theorem pySubstr_high_of_very_high (s : String)
    (h : pySubstr "very high" s = true) : pySubstr "high" s = true := by
  unfold pySubstr at h ⊢
  have hsplit : ("very high".data : List Char) = "very ".data ++ "high".data := by decide
  rw [hsplit] at h
  exact listSubstr_of_append _ _ _ h

/-- Filtering on the embedded row commutes with projecting the row out. -/
theorem map_row_filter (q : SchemeRow → Bool) (l : List ScoredRow) :
    (l.filter (fun r => q r.row)).map ScoredRow.row = (l.map ScoredRow.row).filter q := by
  induction l with
  | nil => rfl
  | cons a t ih =>
      by_cases h : q a.row
      · simp [List.filter_cons, h, ih]
      · simp [List.filter_cons, h, ih]

/-- Everything selected by `nlargestBy` comes from the input list. -/
theorem nlargestBy_subset (n : Nat) (key : ScoredRow → ℚ) (l : List ScoredRow) :
    ∀ x ∈ nlargestBy n key l, x ∈ l := by
  intro x hx
  have hx' : x ∈ l.insertionSort (fun a b => key b ≤ key a) :=
    (List.take_sublist n _).subset hx
  exact (List.perm_insertionSort _ l).subset hx'

/-- Selection `nlargestBy` returns `min n l.length` rows. -/
theorem nlargestBy_length (n : Nat) (key : ScoredRow → ℚ) (l : List ScoredRow) :
    (nlargestBy n key l).length = min n l.length := by
  unfold nlargestBy
  rw [List.length_take, (List.perm_insertionSort _ l).length_eq]

/-- Every selected row's key dominates every unselected row's key. -/
theorem nlargestBy_top (n : Nat) (key : ScoredRow → ℚ) (l : List ScoredRow) :
    ∀ x ∈ nlargestBy n key l, ∀ y ∈ l, y ∉ nlargestBy n key l → key y ≤ key x := by
  intro x hx y hy hyn
  unfold nlargestBy at hx hyn
  have hsorted : List.Sorted (fun a b => key b ≤ key a)
      (l.insertionSort (fun a b => key b ≤ key a)) := by
    haveI : IsTotal ScoredRow (fun a b => key b ≤ key a) :=
      ⟨fun a b => le_total (key b) (key a)⟩
    haveI : IsTrans ScoredRow (fun a b => key b ≤ key a) :=
      ⟨fun a b c hab hbc => le_trans hbc hab⟩
    exact List.sorted_insertionSort _ l
  have hy' : y ∈ l.insertionSort (fun a b => key b ≤ key a) :=
    ((List.perm_insertionSort _ l).symm.subset) hy
  have hsplit : y ∈ List.take n (l.insertionSort (fun a b => key b ≤ key a))
      ++ List.drop n (l.insertionSort (fun a b => key b ≤ key a)) := by
    rw [List.take_append_drop]
    exact hy'
  have hyd : y ∈ List.drop n (l.insertionSort (fun a b => key b ≤ key a)) := by
    rcases List.mem_append.mp hsplit with h | h
    · exact absurd h hyn
    · exact h
  have hpair := hsorted
  rw [← List.take_append_drop n (l.insertionSort (fun a b => key b ≤ key a))] at hpair
  exact (List.pairwise_append.mp hpair).2.2 x hx y hyd

/-- Every entry built for a bucket carries that bucket's asset class. -/
theorem buildBucket_asset_class (ac : String) (start : Nat) (rows : List ScoredRow) :
    ∀ r ∈ buildBucket ac start rows, r.asset_class = ac := by
  intro r hr
  unfold buildBucket at hr
  obtain ⟨ir, _, rfl⟩ := List.mem_map.mp hr
  rfl

/-- Bucket construction emits one entry per row. -/
theorem buildBucket_length (ac : String) (start : Nat) (rows : List ScoredRow) :
    (buildBucket ac start rows).length = rows.length := by
  unfold buildBucket
  rw [List.length_map, List.enum_length]

/-- The asset classes of a bucket are constant. -/
theorem buildBucket_map_class (ac : String) (start : Nat) (rows : List ScoredRow) :
    (buildBucket ac start rows).map (fun r => r.asset_class)
      = List.replicate rows.length ac := by
  rw [List.eq_replicate_iff]
  refine ⟨by rw [List.length_map, buildBucket_length], ?_⟩
  intro b hb
  obtain ⟨r, hr, rfl⟩ := List.mem_map.mp hb
  exact buildBucket_asset_class ac start rows r hr

/-- The scheme codes of a bucket are those of its rows, in order. -/
theorem buildBucket_map_code (ac : String) (start : Nat) (rows : List ScoredRow) :
    (buildBucket ac start rows).map (fun r => r.scheme_code)
      = rows.map (fun sr => sr.row.scheme_code) := by
  unfold buildBucket
  rw [List.map_map]
  have hcomp : ((fun r : Recommendation => r.scheme_code) ∘ fun ir : Nat × ScoredRow =>
      mkRecommendation (start + ir.1 + 1) ac ir.2)
      = (fun sr : ScoredRow => sr.row.scheme_code) ∘ Prod.snd := rfl
  rw [hcomp, ← List.map_map, List.enum_map_snd]

/-! ## Claim theorems -/

/-- Claim C4: for every catalog record — any `scheme_name` and
`scheme_category` strings — classification assigns exactly one
`Asset_Class` in `{Equity, Debt, Hybrid, Other}` and one `Risk_Grade` in
`{1,...,5}`; it is idempotent, and both labels depend only on the two text
fields (so reclassifying never changes them). -/
theorem classification_total_and_idempotent :
    ∀ (r : CatalogRecord),
      (classifyRecord r).Asset_Class ∈ ["Equity", "Debt", "Hybrid", "Other"]
      ∧ (classifyRecord r).Risk_Grade ∈ [1, 2, 3, 4, 5]
      ∧ classifyRecord (classifyRecord r) = classifyRecord r
      ∧ (∀ (a₁ : String) (g₁ : Nat) (a₂ : String) (g₂ : Nat),
          classifyRecord ⟨r.scheme_name, r.scheme_category, a₁, g₁⟩
            = classifyRecord ⟨r.scheme_name, r.scheme_category, a₂, g₂⟩) := by
  intro r
  refine ⟨?_, ?_, rfl, fun a₁ g₁ a₂ g₂ => rfl⟩
  · show classifyRow r.scheme_name r.scheme_category ∈ _
    unfold classifyRow
    split_ifs <;> simp
  · show riskGrade r.scheme_category ∈ _
    unfold riskGrade
    split_ifs <;> simp

/-- Claim C3: a record whose lowercased name contains both `"bond"` and
`"index"` and whose combined lowercased text contains none of the exclusion
keywords is classified `Debt` — the debt name tier fires before the equity
tier ever sees `"index"`. -/
theorem bond_index_classified_debt (scheme_name scheme_category : String)
    (h1 : pySubstr "bond" (pyLower scheme_name) = true)
    (h2 : pySubstr "index" (pyLower scheme_name) = true)
    (h3 : ∀ k ∈ exclusion_keywords,
        pySubstr k (combinedText scheme_name scheme_category) = false) :
    classifyRow scheme_name scheme_category = "Debt" := by
  have hexcl : containsAny exclusion_keywords (combinedText scheme_name scheme_category)
      = false := by
    unfold containsAny
    rw [List.any_eq_false]
    intro k hk
    simp [h3 k hk]
  have hname : containsAny debt_name_keywords (pyLower scheme_name) = true := by
    unfold containsAny
    rw [List.any_eq_true]
    exact ⟨"bond", by simp [debt_name_keywords], h1⟩
  unfold classifyRow
  rw [hexcl, hname]
  simp

/-- Witness for C3 at the spec's own example name. -/
theorem bond_index_classified_debt_witness :
    (pySubstr "bond" (pyLower "XYZ PSU Bond Plus SDL Index Fund") = true
      ∧ pySubstr "index" (pyLower "XYZ PSU Bond Plus SDL Index Fund") = true
      ∧ ∀ k ∈ exclusion_keywords,
          pySubstr k (combinedText "XYZ PSU Bond Plus SDL Index Fund" "Index Funds") = false)
    ∧ classifyRow "XYZ PSU Bond Plus SDL Index Fund" "Index Funds" = "Debt" :=
  ⟨⟨by decide, by decide, by decide⟩,
   bond_index_classified_debt _ _ (by decide) (by decide) (by decide)⟩

/-- Claim C1 (code bug): with the documented goal value `"Emergency"` in the
goal list, `_hard_filter`'s case-sensitive test `'emergency' in
profile.investment_goals` never fires, so an Equity row with risk grade 3
survives the hard filter — the output is not a subset of
Debt-with-Risk_Grade-1. -/
theorem hard_filter_emergency_goal_bug :
    "Emergency" ∈ profileEmergencyLong.investment_goals
    ∧ hardFilter profileEmergencyLong [equityRowFixture] = [equityRowFixture]
    ∧ equityRowFixture.Asset_Class = "Equity"
    ∧ equityRowFixture.Asset_Class
        = classifyRow equityRowFixture.scheme_name equityRowFixture.scheme_category
    ∧ equityRowFixture.Risk_Grade
        = riskGrade equityRowFixture.scheme_category
    ∧ ¬ (∀ r ∈ hardFilter profileEmergencyLong [equityRowFixture],
          r.Asset_Class = "Debt" ∧ r.Risk_Grade = 1) := by decide

/-- Counterexample to claim C2: the profile with goal list `["Emergency"]`
and horizon `"10+yr"` receives an 80% equity allocation — the Emergency
override only runs inside the short-horizon branch. -/
theorem allocation_emergency_long_horizon_counterexample :
    "Emergency" ∈ profileEmergencyLong.investment_goals
    ∧ (computeAllocation profileEmergencyLong).1 = 4/5
    ∧ (computeAllocation profileEmergencyLong).1 ≠ 0 := by decide

/-- Claim C2 as amended: when `"Emergency"` is among the goals
(case-insensitively) and the lowercased horizon additionally matches one of
the short-horizon markers `<1 | less | 1yr | 1-3 | 3yr-5yr`, the Allocator
returns `equity_pct = 0` and `debt_pct = 1`, regardless of age and risk
tolerance. -/
theorem allocation_emergency_short_horizon (p : UserProfile)
    (hg : "emergency" ∈ p.investment_goals.map pyLower)
    (hh : containsAny ["<1", "less", "1yr", "1-3", "3yr-5yr"]
        (pyLower p.investment_horizon) = true) :
    computeAllocation p = (0, 1) := by
  unfold computeAllocation
  rw [hh]
  simp [hg]

/-- Witness for the amended C2. -/
theorem allocation_emergency_short_horizon_witness :
    ("emergency" ∈ profileEmergencyShort.investment_goals.map pyLower
      ∧ containsAny ["<1", "less", "1yr", "1-3", "3yr-5yr"]
          (pyLower profileEmergencyShort.investment_horizon) = true)
    ∧ computeAllocation profileEmergencyShort = (0, 1) :=
  ⟨⟨by decide, by decide⟩,
   allocation_emergency_short_horizon profileEmergencyShort (by decide) (by decide)⟩

/-- Claim C5 (code bug): a raw catalog holding exactly the six mandatory
columns passes the mandatory-column check, yet `_validate_dataset` fails
with a `KeyError` at `self.df_schemes['cagr_5y'].fillna(0.0)` — the only
fillna line without a column-existence guard — instead of backfilling the
absent optional column with its documented default `0.0`. -/
theorem validate_dataset_missing_cagr5y_keyerror :
    required_cols.all (fun c => rawCatalogMandatoryOnly.hasCol c) = true
    ∧ validateDataset rawCatalogMandatoryOnly = Except.error "KeyError: cagr_5y" := by decide

/-- Counterexample to claim C6: the unrecognized risk tolerance `"yellow"`
falls back to the Moderate ordinal in `vectorize_user`, but the Allocator's
substring test `'low' in risk_tol` matches it and subtracts 20 points, so
its equity allocation differs from the Moderate profile's. -/
theorem unknown_risk_tolerance_counterexample :
    profileYellow.risk_tolerance ∉ ["Low", "Moderate", "High", "Very High"]
    ∧ (vectorizeUser profileYellow).risk_score
        = (vectorizeUser { profileYellow with risk_tolerance := "Moderate" }).risk_score
    ∧ (computeAllocation profileYellow).1 = 1/2
    ∧ (computeAllocation { profileYellow with risk_tolerance := "Moderate" }).1 = 7/10
    ∧ computeAllocation profileYellow
        ≠ computeAllocation { profileYellow with risk_tolerance := "Moderate" } := by decide

/-- Claim C6 as amended: an unrecognized risk tolerance is treated as
Moderate provided its lowercased form contains neither `"high"` nor `"low"`
as a substring: the vectorizer assigns the Moderate risk score and the
Allocator applies no risk adjustment (same allocation as the literal
`"Moderate"` profile). -/
theorem unknown_risk_tolerance_moderate_default (p : UserProfile)
    (h0 : p.risk_tolerance ∉ ["Low", "Moderate", "High", "Very High"])
    (h1 : pySubstr "high" (pyLower p.risk_tolerance) = false)
    (h2 : pySubstr "low" (pyLower p.risk_tolerance) = false) :
    (vectorizeUser p).risk_score = riskMapGet "Moderate" / 5
    ∧ computeAllocation p = computeAllocation { p with risk_tolerance := "Moderate" } := by
  have h1' : pySubstr "very high" (pyLower p.risk_tolerance) = false := by
    cases hvh : pySubstr "very high" (pyLower p.risk_tolerance) with
    | false => rfl
    | true => exact absurd (pySubstr_high_of_very_high _ hvh) (by simp [h1])
  constructor
  · simp only [List.mem_cons, List.not_mem_nil, or_false, not_or] at h0
    obtain ⟨n1, n2, n3, n4⟩ := h0
    simp [vectorizeUser, riskMapGet, n1, n2, n3, n4]
  · have hM1 : pySubstr "high" (pyLower "Moderate") = false := by decide
    have hM2 : pySubstr "very high" (pyLower "Moderate") = false := by decide
    have hM3 : pySubstr "low" (pyLower "Moderate") = false := by decide
    simp only [computeAllocation]
    rw [h1, h1', h2]
    simp [hM1, hM2, hM3]

/-- Witness for the amended C6 at the unrecognized value `"Medium"`. -/
theorem unknown_risk_tolerance_moderate_default_witness :
    (profileMedium.risk_tolerance ∉ ["Low", "Moderate", "High", "Very High"]
      ∧ pySubstr "high" (pyLower profileMedium.risk_tolerance) = false
      ∧ pySubstr "low" (pyLower profileMedium.risk_tolerance) = false)
    ∧ (vectorizeUser profileMedium).risk_score = riskMapGet "Moderate" / 5
    ∧ computeAllocation profileMedium
        = computeAllocation { profileMedium with risk_tolerance := "Moderate" } :=
  ⟨⟨by decide, by decide, by decide⟩,
   unknown_risk_tolerance_moderate_default profileMedium (by decide) (by decide) (by decide)⟩

/-- Claim C8: when the hard filter leaves zero rows, `recommend` returns
the empty list (the early return at lines 544-546); no failure path exists. -/
theorem recommend_empty_filter_yields_empty (scorer : Scorer) (catalog : List SchemeRow)
    (p : UserProfile) (n : Nat) (h : hardFilter p catalog = []) :
    recommend scorer catalog p n = [] := by
  unfold recommend recommendFull
  rw [h]
  simp

/-- Witness for C8: the empty catalog filters to nothing and yields no
recommendations. -/
theorem recommend_empty_filter_yields_empty_witness :
    hardFilter profileGrowth [] = []
    ∧ recommend simpleScorer [] profileGrowth 5 = [] :=
  ⟨by decide,
   recommend_empty_filter_yields_empty simpleScorer [] profileGrowth 5 (by decide)⟩

/-- Claim C9: a `recommend` call leaves the engine's classified catalog
untouched — the state threaded through the call comes back unchanged — and
the hard filter only ever selects a sublist of the catalog (same rows, same
order, nothing added or edited). -/
theorem recommend_never_mutates_catalog (scorer : Scorer) (s : EngineState)
    (p : UserProfile) (n : Nat) :
    (recommendState scorer s p n).2 = s
    ∧ (hardFilter p s.df_schemes).Sublist s.df_schemes := by
  refine ⟨rfl, ?_⟩
  have h1 : (hardFilterHorizon p s.df_schemes).Sublist s.df_schemes := by
    unfold hardFilterHorizon
    split_ifs <;> first | exact List.filter_sublist _ | exact List.Sublist.refl _
  have h2 : (hardFilterExperience p (hardFilterHorizon p s.df_schemes)).Sublist
      (hardFilterHorizon p s.df_schemes) := by
    unfold hardFilterExperience
    split_ifs <;> first | exact List.filter_sublist _ | exact List.Sublist.refl _
  exact (List.filter_sublist _).trans ((List.filter_sublist _).trans (h2.trans h1))

/-- Claim C10: `recommend` is deterministic — two calls on the same catalog
with equal profile field values and equal `top_n` return identical lists. -/
theorem recommend_deterministic (scorer : Scorer) (catalog : List SchemeRow) (n : Nat)
    (p1 p2 : UserProfile)
    (h1 : p1.user_id = p2.user_id) (h2 : p1.age = p2.age)
    (h3 : p1.annual_income = p2.annual_income) (h4 : p1.monthly_sip = p2.monthly_sip)
    (h5 : p1.risk_tolerance = p2.risk_tolerance)
    (h6 : p1.investment_horizon = p2.investment_horizon)
    (h7 : p1.investment_goals = p2.investment_goals)
    (h8 : p1.experience = p2.experience) :
    recommend scorer catalog p1 n = recommend scorer catalog p2 n := by
  have hp : p1 = p2 := by
    cases p1
    cases p2
    simp_all
  rw [hp]

/-- Witness for C10: two distinct bindings of the same profile values give
element-wise identical outputs. -/
theorem recommend_deterministic_witness :
    recommend simpleScorer catalogFixture profileGrowth 5
      = recommend simpleScorer catalogFixture profileGrowthTwin 5 :=
  recommend_deterministic simpleScorer catalogFixture 5 profileGrowth profileGrowthTwin
    rfl rfl rfl rfl rfl rfl rfl rfl

/-- The Equity-labelled entries of the two-bucket output are exactly the
Equity bucket, in order. -/
theorem selection_filter_equity (EF DF : List ScoredRow) (L : Nat) :
    ((buildBucket "Equity" 0 EF ++ buildBucket "Debt" L DF).filter
        (fun r => r.asset_class == "Equity")).map (fun r => r.scheme_code)
      = EF.map (fun sr => sr.row.scheme_code) := by
  rw [List.filter_append]
  have fe : (buildBucket "Equity" 0 EF).filter (fun r => r.asset_class == "Equity")
      = buildBucket "Equity" 0 EF :=
    List.filter_eq_self.mpr (fun a ha => by simp [buildBucket_asset_class _ _ _ a ha])
  have fd : (buildBucket "Debt" L DF).filter (fun r => r.asset_class == "Equity") = [] :=
    List.filter_eq_nil_iff.mpr (fun a ha => by simp [buildBucket_asset_class _ _ _ a ha])
  rw [fe, fd, List.append_nil, buildBucket_map_code]

/-- The Debt-labelled entries of the two-bucket output are exactly the Debt
bucket, in order. -/
theorem selection_filter_debt (EF DF : List ScoredRow) (L : Nat) :
    ((buildBucket "Equity" 0 EF ++ buildBucket "Debt" L DF).filter
        (fun r => r.asset_class == "Debt")).map (fun r => r.scheme_code)
      = DF.map (fun sr => sr.row.scheme_code) := by
  rw [List.filter_append]
  have fe : (buildBucket "Equity" 0 EF).filter (fun r => r.asset_class == "Debt") = [] :=
    List.filter_eq_nil_iff.mpr (fun a ha => by simp [buildBucket_asset_class _ _ _ a ha])
  have fd : (buildBucket "Debt" L DF).filter (fun r => r.asset_class == "Debt")
      = buildBucket "Debt" L DF :=
    List.filter_eq_self.mpr (fun a ha => by simp [buildBucket_asset_class _ _ _ a ha])
  rw [fe, fd, List.nil_append, buildBucket_map_code]

/-- Claim C7: for a non-empty filtered set and any row-preserving scorer,
the pre-truncation output of `recommend` satisfies the bucket-selection
contract: top-3 Equity by `Score` when `equity_pct > 0.01` (none
otherwise), followed by top-2 Debt (top-3 when equity is ~0), each bucket
shrinking with the survivors, and never a Hybrid- or Other-class scheme. -/
theorem recommend_bucket_selection (scorer : Scorer) (catalog : List SchemeRow)
    (p : UserProfile)
    (hrows : (scorer (hardFilter p catalog)).map ScoredRow.row = hardFilter p catalog)
    (hne : hardFilter p catalog ≠ []) :
    selectionContract scorer catalog p := by
  have hlen : ¬ ((hardFilter p catalog).length = 0) := fun h => hne (List.length_eq_zero.mp h)
  have hrecs : recommendFull scorer catalog p
      = buildBucket "Equity" 0
          (if (computeAllocation p).1 > 1/100 then
            nlargestBy 3 (fun r => r.score)
              ((scorer (hardFilter p catalog)).filter (fun r => r.row.Asset_Class == "Equity"))
          else [])
        ++ buildBucket "Debt"
            (buildBucket "Equity" 0
              (if (computeAllocation p).1 > 1/100 then
                nlargestBy 3 (fun r => r.score)
                  ((scorer (hardFilter p catalog)).filter
                    (fun r => r.row.Asset_Class == "Equity"))
              else [])).length
            (nlargestBy (if (computeAllocation p).1 > 1/100 then 2 else 3) (fun r => r.score)
              ((scorer (hardFilter p catalog)).filter
                (fun r => r.row.Asset_Class == "Debt"))) := by
    simp only [recommendFull]
    rw [if_neg hlen]
  unfold selectionContract
  simp only []
  rw [hrecs]
  refine ⟨⟨?_, ?_⟩, ?_, ?_, ?_, ?_, ?_, ?_⟩
  · rw [map_row_filter (fun r => r.Asset_Class == "Equity"), hrows]
  · rw [map_row_filter (fun r => r.Asset_Class == "Debt"), hrows]
  · intro r hr
    rcases List.mem_append.mp hr with h | h
    · exact Or.inl (buildBucket_asset_class _ _ _ r h)
    · exact Or.inr (buildBucket_asset_class _ _ _ r h)
  · rw [List.map_append, buildBucket_map_class, buildBucket_map_class]
    have hEFlen : (if (computeAllocation p).1 > 1/100 then
        nlargestBy 3 (fun r => r.score)
          ((scorer (hardFilter p catalog)).filter (fun r => r.row.Asset_Class == "Equity"))
      else []).length
        = (if (computeAllocation p).1 > 1/100 then
            min 3 ((scorer (hardFilter p catalog)).filter
              (fun r => r.row.Asset_Class == "Equity")).length
          else 0) := by
      by_cases hpc : (computeAllocation p).1 > 1/100
      · rw [if_pos hpc, if_pos hpc, nlargestBy_length]
      · rw [if_neg hpc, if_neg hpc]
        rfl
    rw [hEFlen, nlargestBy_length]
  · exact selection_filter_equity _ _ _
  · exact selection_filter_debt _ _ _
  · exact nlargestBy_top _ _ _
  · exact nlargestBy_top _ _ _

/-- Witness for C7: the five-scheme fixture catalog under the long-horizon
growth profile — both hypotheses hold and the selection contract follows. -/
theorem recommend_bucket_selection_witness :
    ((simpleScorer (hardFilter profileGrowth catalogFixture)).map ScoredRow.row
        = hardFilter profileGrowth catalogFixture
      ∧ hardFilter profileGrowth catalogFixture ≠ [])
    ∧ selectionContract simpleScorer catalogFixture profileGrowth :=
  ⟨⟨by decide, by decide⟩,
   recommend_bucket_selection simpleScorer catalogFixture profileGrowth
     (by decide) (by decide)⟩
